import Mathlib

/-!
Verification of the equation-solver HTTP handler (`backend/app.py`).

The handler `solve_equation` is a pure function of its two query
parameters once the external computer-algebra collaborator (SymPy) is
abstracted as an interface: parsing a calculator-style string, reading
the free symbols of a parsed form, testing equality of two expressions,
and solving for a named symbol.  The collaborator is modelled by the
structure `CAS`; the handler is translated statement by statement from
the Python source.  Python exceptions inside the `try` block are
modelled by `Except String`; the `except` clause is the match at the
end of `solve_equation`.
-/

/-- Whitespace test used by the model of Python str.strip(). -/
def wsChar (c : Char) : Bool := c.isWhitespace

/-- Both-ends whitespace trim at the char-list level (model of Python
str.strip()). -/
def pyStripL (l : List Char) : List Char :=
  ((l.dropWhile wsChar).reverse.dropWhile wsChar).reverse

/-- Model of Python str.strip() on strings. -/
def pyStrip (s : String) : String := String.mk (pyStripL s.data)

/-- Model of Python str.split for the single-character separator
character, at the char-list level: `splitEqList l` is the list of
chunks of `l` between occurrences of the separator.  Like Python's
split it always returns at least one chunk. -/
def splitEqList : List Char → List (List Char)
  | [] => [[]]
  | c :: cs =>
    let rest := splitEqList cs
    if c = '=' then [] :: rest
    else (c :: rest.headD []) :: rest.tail

/-- Model of Python equation.split for separator character.  -/
def splitEq (s : String) : List String := (splitEqList s.data).map String.mk

/-- Number of separator characters in a string. -/
def countEq (s : String) : Nat := s.data.count '='

/-- The parsed form handled by the Python code: either a SymPy Eq object
built from two parsed sides, or a bare parsed expression (the duck-typed
branch on isinstance Eq in the source). -/
inductive Parsed (E : Type) where
  | eqn (lhs rhs : E)
  | bare (e : E)

/-- The external computer-algebra collaborator (SymPy), as consumed by
the handler: parse a calculator-style string, read the free symbols of a
parsed expression, test equality of two expressions (lhs.equals(rhs) on
the evaluate path), solve for a named symbol, and render an expression
to its display string.  Fallible operations return `Except String`,
the error payload being str(e) for the exception raised. -/
structure CAS (E : Type) where
  parse_expr : String → Except String E
  free_symbols : E → Finset String
  equals : E → E → Bool
  solve : Parsed E → String → Except String (List E)
  toStr : E → String

instance {e a : Type} [DecidableEq e] [DecidableEq a] : DecidableEq (Except e a) := fun x y =>
  match x, y with
  | Except.ok u, Except.ok v => decidable_of_iff (u = v) (by simp)
  | Except.error u, Except.error v => decidable_of_iff (u = v) (by simp)
  | Except.ok _, Except.error _ => isFalse (by simp)
  | Except.error _, Except.ok _ => isFalse (by simp)

/-- Free symbols of a parsed form: for an Eq object SymPy reports the
union of the free symbols of both sides. -/
def parsedFree {E : Type} (cas : CAS E) : Parsed E → Finset String
  | Parsed.eqn l r => cas.free_symbols l ∪ cas.free_symbols r
  | Parsed.bare e => cas.free_symbols e

/-- Python str() on a boolean. -/
def boolStr : Bool → String
  | true => "True"
  | false => "False"

/-- JSON body of a response: either a result payload or an error
payload. -/
inductive Body where
  | result (s : String)
  | error (s : String)
deriving DecidableEq, Repr

/-- An HTTP response: status code plus JSON body. -/
structure Response where
  status : Nat
  body : Body
deriving DecidableEq, Repr

/-- Lexicographic comparison of char lists by code point, the order
Python sorted() applies to the variable-name strings. -/
def chLe : List Char → List Char → Bool
  | [], _ => true
  | _ :: _, [] => false
  | c :: cs, d :: ds => if c < d then true else if d < c then false else chLe cs ds

/-- The induced order on strings. -/
def strLe (a b : String) : Prop := chLe a.data b.data = true

instance : DecidableRel strLe := fun a b => instDecidableEqBool (chLe a.data b.data) true

theorem chLe_total : ∀ l m : List Char, chLe l m = true ∨ chLe m l = true
  | [], _ => Or.inl rfl
  | _ :: _, [] => Or.inr rfl
  | c :: cs, d :: ds => by
    by_cases h1 : c < d
    · exact Or.inl (by simp [chLe, h1])
    · by_cases h2 : d < c
      · exact Or.inr (by simp [chLe, h2, asymm h2])
      · have hcd : c = d := le_antisymm (not_lt.mp h2) (not_lt.mp h1)
        subst hcd
        rcases chLe_total cs ds with h | h
        · exact Or.inl (by simp [chLe, h, lt_irrefl])
        · exact Or.inr (by simp [chLe, h, lt_irrefl])

theorem chLe_antisymm : ∀ l m : List Char, chLe l m = true → chLe m l = true → l = m
  | [], [], _, _ => rfl
  | [], _ :: _, _, h2 => by simp [chLe] at h2
  | _ :: _, [], h1, _ => by simp [chLe] at h1
  | c :: cs, d :: ds, h1, h2 => by
    by_cases hcd : c < d
    · simp [chLe, hcd, asymm hcd] at h2
    · by_cases hdc : d < c
      · simp [chLe, hdc, asymm hdc] at h1
      · have : c = d := le_antisymm (not_lt.mp hdc) (not_lt.mp hcd)
        subst this
        simp only [chLe, lt_irrefl, if_false] at h1 h2
        exact congrArg (c :: ·) (chLe_antisymm cs ds h1 h2)

theorem chLe_trans : ∀ l m k : List Char, chLe l m = true → chLe m k = true → chLe l k = true
  | [], _, _, _, _ => rfl
  | _ :: _, [], _, h1, _ => by simp [chLe] at h1
  | _ :: _, _ :: _, [], _, h2 => by simp [chLe] at h2
  | c :: cs, d :: ds, e :: es, h1, h2 => by
    by_cases hcd : c < d
    · by_cases hde : d < e
      · simp [chLe, lt_trans hcd hde]
      · by_cases hed : e < d
        · simp [chLe, hed, asymm hed] at h2
        · have : d = e := le_antisymm (not_lt.mp hed) (not_lt.mp hde)
          subst this
          simp [chLe, hcd]
    · by_cases hdc : d < c
      · simp [chLe, hdc, asymm hdc] at h1
      · have : c = d := le_antisymm (not_lt.mp hdc) (not_lt.mp hcd)
        subst this
        simp only [chLe, lt_irrefl, if_false] at h1
        by_cases hde : c < e
        · simp [chLe, hde]
        · by_cases hed : e < c
          · simp [chLe, hed, asymm hed] at h2
          · have : c = e := le_antisymm (not_lt.mp hed) (not_lt.mp hde)
            subst this
            simp only [chLe, lt_irrefl, if_false] at h2 ⊢
            exact chLe_trans cs ds es h1 h2

instance : IsTotal String strLe := ⟨fun a b => chLe_total a.data b.data⟩

instance : IsTrans String strLe := ⟨fun a b c => chLe_trans a.data b.data c.data⟩

instance : IsAntisymm String strLe :=
  ⟨fun a b h1 h2 => by
    cases a; cases b
    exact congrArg String.mk (chLe_antisymm _ _ h1 h2)⟩

/-- Model of Python sorted() applied to the set of free-symbol names:
the elements of the set listed in ascending code-point order. -/
def sortNames (s : Finset String) : List String :=
  Quot.liftOn s.val (fun l => l.insertionSort strLe)
    (fun l1 l2 h => List.eq_of_perm_of_sorted
      ((List.perm_insertionSort _ l1).trans (h.trans (List.perm_insertionSort _ l2).symm))
      (List.sorted_insertionSort _ l1) (List.sorted_insertionSort _ l2))

/-- Result formatting (lines 85-94 of app.py): empty solution list
gives "No solution found"; a single solution is rendered as
var = solution; several solutions are comma-joined after var =, in the
order the solver returned them. -/
def format_solutions {E : Type} (cas : CAS E) (v : String) (sols : List E) : Response :=
  match sols with
  | [] => ⟨200, Body.result "No solution found"⟩
  | [s] => ⟨200, Body.result (v ++ " = " ++ cas.toStr s)⟩
  | _ => ⟨200, Body.result (v ++ " = " ++ String.intercalate ", " (sols.map cas.toStr))⟩

/-- Invoke the solver on the parsed form for the chosen variable and
format the outcome; a solver exception propagates. -/
def solve_and_format {E : Type} (cas : CAS E) (p : Parsed E) (v : String) :
    Except String Response :=
  (cas.solve p v).map (format_solutions cas v)

/-- Variable selection and onward processing after parsing (lines 56-94
of app.py): an explicitly requested variable wins; else a sole free
variable; else, with no free variable, evaluate instead of solving;
else prefer the name x among the sorted free-symbol names and fall back
to the alphabetically first one. -/
def after_parse {E : Type} (cas : CAS E) (p : Parsed E) (var : String) :
    Except String Response :=
  let fs := parsedFree cas p
  if var ≠ "" then
    solve_and_format cas p var
  else if fs.card = 1 then
    solve_and_format cas p ((sortNames fs).headD "")
  else if fs.card = 0 then
    match p with
    | Parsed.eqn l r => Except.ok ⟨200, Body.result (boolStr (cas.equals l r))⟩
    | Parsed.bare e => Except.ok ⟨200, Body.result (cas.toStr e)⟩
  else
    let sym_names := sortNames fs
    if "x" ∈ sym_names then solve_and_format cas p "x"
    else solve_and_format cas p (sym_names.headD "")

/-- The body of the Python try block (lines 36-94 of app.py): split the
trimmed equation on the separator; three or more chunks is the
invalid-format 400 (returned normally, not raised); exactly two chunks
are parsed into an Eq; no separator parses the whole string as a bare
expression; then variable selection, evaluation or solving, and
formatting.  An `Except.error` is a Python exception reaching the
handler's except clause. -/
def try_block {E : Type} (cas : CAS E) (equation var : String) :
    Except String Response :=
  if countEq equation ≥ 1 then
    let parts := splitEq equation
    if parts.length ≠ 2 then
      Except.ok ⟨400, Body.error "Invalid equation format. Use single \x27=\x27 sign."⟩
    else do
      let lhs ← cas.parse_expr (pyStrip (parts.getD 0 ""))
      let rhs ← cas.parse_expr (pyStrip (parts.getD 1 ""))
      after_parse cas (Parsed.eqn lhs rhs) var
  else do
    let e ← cas.parse_expr equation
    after_parse cas (Parsed.bare e) var

/-- The /solve handler (app.py lines 27-97).  The query parameters are
`Option String` (absent vs present); both are defaulted to "" and
trimmed as in the source.  An empty trimmed equation is the missing-
parameter 400; otherwise the try block runs and any exception it
raises is caught and wrapped into the Failed-to-solve 400. -/
def solve_equation {E : Type} (cas : CAS E) (equationQ varQ : Option String) : Response :=
  let equation := pyStrip (equationQ.getD "")
  let var := pyStrip (varQ.getD "")
  if equation = "" then
    ⟨400, Body.error "Missing \x27equation\x27 query parameter"⟩
  else
    match try_block cas equation var with
    | Except.ok r => r
    | Except.error m => ⟨400, Body.error ("Failed to solve equation: " ++ m)⟩

/-- A run of the stateless server: each request in the run is handled
independently by `solve_equation`. -/
def serve {E : Type} (cas : CAS E) (reqs : List (Option String × Option String)) :
    List Response :=
  reqs.map (fun q => solve_equation cas q.1 q.2)

/-!
A small concrete collaborator instance, used to evaluate the handler on
concrete requests.  Its expressions are integer constants, linear terms
a*v + b in one named variable, and two-variable sums v + w; its parser
recognises a handful of calculator strings.  It is one admissible
behaviour of the black-box collaborator, sufficient to exercise every
branch of the handler.
-/

/-- Expressions of the demo collaborator. -/
inductive DExpr where
  | num (n : Int)
  | lin (v : String) (a b : Int)
  | add2 (v w : String)
deriving DecidableEq, Repr

/-- Demo parser: a fixed dictionary of calculator strings; anything else
raises (the empty string included, as parse_expr("") does). -/
def dparse : String → Except String DExpr
  | "0" => Except.ok (DExpr.num 0)
  | "5" => Except.ok (DExpr.num 5)
  | "2x+4" => Except.ok (DExpr.lin "x" 2 4)
  | "x+1" => Except.ok (DExpr.lin "x" 1 1)
  | "a+b" => Except.ok (DExpr.add2 "a" "b")
  | "x+y" => Except.ok (DExpr.add2 "x" "y")
  | s => Except.error ("could not parse: " ++ s)

/-- Free symbols of a demo expression. -/
def dfree : DExpr → Finset String
  | DExpr.num _ => ∅
  | DExpr.lin v _ _ => {v}
  | DExpr.add2 v w => {v, w}

/-- Display string of a demo expression. -/
def dstr : DExpr → String
  | DExpr.num n => toString n
  | DExpr.lin v a b => toString a ++ "*" ++ v ++ " + " ++ toString b
  | DExpr.add2 v w => v ++ " + " ++ w

/-- Structural equality test of the demo collaborator (the equals call
on the evaluate path). -/
def dequals (x y : DExpr) : Bool := x = y

/-- Difference of two demo expressions, used to reduce an equation
lhs = rhs to the expression lhs - rhs = 0; unsupported combinations
raise. -/
def dsub : DExpr → DExpr → Except String DExpr
  | DExpr.num m, DExpr.num n => Except.ok (DExpr.num (m - n))
  | DExpr.lin v a b, DExpr.num n => Except.ok (DExpr.lin v a (b - n))
  | DExpr.num n, DExpr.lin v a b => Except.ok (DExpr.lin v (-a) (n - b))
  | DExpr.add2 v w, DExpr.num 0 => Except.ok (DExpr.add2 v w)
  | _, _ => Except.error "unsupported subtraction"

/-- Demo solver: a bare expression is treated as expression = 0; an
equation is moved to one side first.  Solving for a symbol absent from
the expression yields no solutions, as SymPy does. -/
def dsolveB : DExpr → String → Except String (List DExpr)
  | DExpr.num _, _ => Except.ok []
  | DExpr.lin v a b, w =>
    if w = v ∧ a ≠ 0 then Except.ok [DExpr.num (-b / a)] else Except.ok []
  | DExpr.add2 v w, u =>
    if u = v then Except.ok [DExpr.lin w (-1) 0]
    else if u = w then Except.ok [DExpr.lin v (-1) 0]
    else Except.ok []

/-- Demo solve over parsed forms. -/
def dsolve : Parsed DExpr → String → Except String (List DExpr)
  | Parsed.bare e, w => dsolveB e w
  | Parsed.eqn l r, w => (dsub l r).bind (fun d => dsolveB d w)

/-- The demo collaborator bundled as a `CAS`. -/
def demoCAS : CAS DExpr :=
  ⟨dparse, dfree, dequals, dsolve, dstr⟩

/-! ### Library lemmas about the split and strip models and the handler's
control flow, shared by the claim theorems. -/

theorem splitEqList_ne_nil (l : List Char) : splitEqList l ≠ [] := by
  cases l with
  | nil => simp [splitEqList]
  | cons c cs =>
    simp only [splitEqList]
    split <;> simp

theorem splitEqList_length (l : List Char) :
    (splitEqList l).length = l.count '=' + 1 := by
  induction l with
  | nil => rfl
  | cons c cs ih =>
    simp only [splitEqList]
    by_cases h : c = '='
    · simp [h, List.count_cons, ih]
    · have hne := splitEqList_ne_nil cs
      have hlen : (splitEqList cs).length ≥ 1 := by
        cases hsp : splitEqList cs with
        | nil => exact absurd hsp hne
        | cons a as => simp
      simp only [if_neg h, List.length_cons, List.length_tail]
      rw [List.count_cons]
      simp only [beq_iff_eq, h, if_false]
      omega

theorem splitEqList_no_sep (l : List Char) (h : l.count '=' = 0) :
    splitEqList l = [l] := by
  induction l with
  | nil => rfl
  | cons c cs ih =>
    rw [List.count_cons] at h
    have hc : c ≠ '=' := by
      intro hc
      simp [hc] at h
    have hcs : cs.count '=' = 0 := by
      simp only [beq_iff_eq, hc, if_false] at h
      omega
    simp [splitEqList, hc, ih hcs]

theorem splitEqList_append (xs ys : List Char) (h : xs.count '=' = 0) :
    splitEqList (xs ++ '=' :: ys) = xs :: splitEqList ys := by
  induction xs with
  | nil => simp [splitEqList]
  | cons c cs ih =>
    rw [List.count_cons] at h
    have hc : c ≠ '=' := by
      intro hc
      simp [hc] at h
    have hcs : cs.count '=' = 0 := by
      simp only [beq_iff_eq, hc, if_false] at h
      omega
    simp [splitEqList, hc, ih hcs]

theorem splitEq_length (s : String) : (splitEq s).length = countEq s + 1 := by
  simp [splitEq, countEq, splitEqList_length]

theorem solve_equation_missing {E : Type} (cas : CAS E) (eqQ varQ : Option String)
    (h : pyStrip (eqQ.getD "") = "") :
    solve_equation cas eqQ varQ = ⟨400, Body.error "Missing \x27equation\x27 query parameter"⟩ := by
  simp only [solve_equation]
  rw [if_pos h]

theorem solve_equation_of_ok {E : Type} (cas : CAS E) (eqQ varQ : Option String)
    (r : Response) (h : pyStrip (eqQ.getD "") ≠ "")
    (h2 : try_block cas (pyStrip (eqQ.getD "")) (pyStrip (varQ.getD "")) = Except.ok r) :
    solve_equation cas eqQ varQ = r := by
  simp only [solve_equation]
  rw [if_neg h, h2]

theorem solve_equation_of_error {E : Type} (cas : CAS E) (eqQ varQ : Option String)
    (m : String) (h : pyStrip (eqQ.getD "") ≠ "")
    (h2 : try_block cas (pyStrip (eqQ.getD "")) (pyStrip (varQ.getD "")) = Except.error m) :
    solve_equation cas eqQ varQ = ⟨400, Body.error ("Failed to solve equation: " ++ m)⟩ := by
  simp only [solve_equation]
  rw [if_neg h, h2]

theorem try_block_bare {E : Type} (cas : CAS E) (equation var : String)
    (h : countEq equation = 0) :
    try_block cas equation var =
      (cas.parse_expr equation).bind (fun e => after_parse cas (Parsed.bare e) var) := by
  unfold try_block
  rw [if_neg (by omega)]
  rfl

theorem try_block_invalid {E : Type} (cas : CAS E) (equation var : String)
    (h : countEq equation ≥ 2) :
    try_block cas equation var =
      Except.ok ⟨400, Body.error "Invalid equation format. Use single \x27=\x27 sign."⟩ := by
  unfold try_block
  have hl := splitEq_length equation
  rw [if_pos (by omega)]
  rw [if_pos (by omega)]

theorem try_block_eqn {E : Type} (cas : CAS E) (equation var : String)
    (h : countEq equation = 1) :
    try_block cas equation var =
      (cas.parse_expr (pyStrip ((splitEq equation).getD 0 ""))).bind (fun lhs =>
        (cas.parse_expr (pyStrip ((splitEq equation).getD 1 ""))).bind (fun rhs =>
          after_parse cas (Parsed.eqn lhs rhs) var)) := by
  unfold try_block
  have hl := splitEq_length equation
  rw [if_pos (by omega)]
  rw [if_neg (by omega)]
  rfl

theorem after_parse_var {E : Type} (cas : CAS E) (p : Parsed E) (var : String)
    (h : var ≠ "") : after_parse cas p var = solve_and_format cas p var := by
  simp only [after_parse]
  rw [if_pos h]

theorem sortNames_singleton (a : String) : sortNames {a} = [a] := rfl

theorem mem_sortNames (x : String) (s : Finset String) : x ∈ sortNames s ↔ x ∈ s := by
  rcases s with ⟨val, nd⟩
  induction val using Quot.inductionOn with
  | h l =>
    show x ∈ List.insertionSort strLe l ↔ _
    rw [(List.perm_insertionSort strLe l).mem_iff]
    rfl

theorem after_parse_sole {E : Type} (cas : CAS E) (p : Parsed E) (a : String)
    (h : parsedFree cas p = {a}) :
    after_parse cas p "" = solve_and_format cas p a := by
  simp only [after_parse, h]
  rw [if_neg (by simp), if_pos (Finset.card_singleton a), sortNames_singleton]
  rfl

theorem after_parse_eval_eqn {E : Type} (cas : CAS E) (l r : E)
    (h : parsedFree cas (Parsed.eqn l r) = ∅) :
    after_parse cas (Parsed.eqn l r) "" =
      Except.ok ⟨200, Body.result (boolStr (cas.equals l r))⟩ := by
  simp only [after_parse, h]
  rw [if_neg (by simp), if_neg (by simp), if_pos (by simp)]

theorem after_parse_eval_bare {E : Type} (cas : CAS E) (e : E)
    (h : parsedFree cas (Parsed.bare e) = ∅) :
    after_parse cas (Parsed.bare e) "" =
      Except.ok ⟨200, Body.result (cas.toStr e)⟩ := by
  simp only [after_parse, h]
  rw [if_neg (by simp), if_neg (by simp), if_pos (by simp)]

theorem after_parse_multi_x {E : Type} (cas : CAS E) (p : Parsed E)
    (h2 : 2 ≤ (parsedFree cas p).card) (hx : "x" ∈ parsedFree cas p) :
    after_parse cas p "" = solve_and_format cas p "x" := by
  simp only [after_parse]
  rw [if_neg (by simp), if_neg (by omega), if_neg (by omega),
    if_pos ((mem_sortNames "x" (parsedFree cas p)).mpr hx)]

theorem after_parse_multi_first {E : Type} (cas : CAS E) (p : Parsed E)
    (h2 : 2 ≤ (parsedFree cas p).card) (hx : "x" ∉ parsedFree cas p) :
    after_parse cas p "" = solve_and_format cas p ((sortNames (parsedFree cas p)).headD "") := by
  simp only [after_parse]
  rw [if_neg (by simp), if_neg (by omega), if_neg (by omega),
    if_neg (fun hmem => hx ((mem_sortNames "x" (parsedFree cas p)).mp hmem))]

theorem pyStrip_empty : pyStrip "" = "" := rfl

/-! ### The claims. -/

/-- C1: For every request to /solve with a non-empty (after trimming)
equation string, the handler either returns the try block's normal
response, or, when the try block raises (any failure of parsing or
solving), the exception is caught and converted to an HTTP 400 response
with body error "Failed to solve equation: <original message>"; no
third outcome exists, so no exception propagates out of the handler. -/
theorem handler_catches_exceptions {E : Type} (cas : CAS E) (eqQ varQ : Option String)
    (h : pyStrip (eqQ.getD "") ≠ "") :
    (∃ r : Response,
        try_block cas (pyStrip (eqQ.getD "")) (pyStrip (varQ.getD "")) = Except.ok r ∧
        solve_equation cas eqQ varQ = r)
    ∨ (∃ m : String,
        try_block cas (pyStrip (eqQ.getD "")) (pyStrip (varQ.getD "")) = Except.error m ∧
        solve_equation cas eqQ varQ = ⟨400, Body.error ("Failed to solve equation: " ++ m)⟩) := by
  cases h2 : try_block cas (pyStrip (eqQ.getD "")) (pyStrip (varQ.getD "")) with
  | ok r => exact Or.inl ⟨r, rfl, solve_equation_of_ok cas eqQ varQ r h h2⟩
  | error m => exact Or.inr ⟨m, rfl, solve_equation_of_error cas eqQ varQ m h h2⟩

theorem handler_catches_exceptions_witness :
    pyStrip ((some "x/0").getD "") ≠ "" ∧
    ((∃ r : Response,
        try_block demoCAS (pyStrip ((some "x/0").getD "")) (pyStrip ((none : Option String).getD "")) = Except.ok r ∧
        solve_equation demoCAS (some "x/0") none = r)
    ∨ (∃ m : String,
        try_block demoCAS (pyStrip ((some "x/0").getD "")) (pyStrip ((none : Option String).getD "")) = Except.error m ∧
        solve_equation demoCAS (some "x/0") none = ⟨400, Body.error ("Failed to solve equation: " ++ m)⟩)) :=
  ⟨by decide, handler_catches_exceptions demoCAS (some "x/0") none (by decide)⟩

/-- C2: The variable to solve for is selected with this precedence: a
non-empty variable parameter is used unconditionally (no check that it
occurs among the free variables); otherwise a sole free variable is
used; otherwise, with several free variables, the name x is used when
present among them, else the alphabetically first free-variable name
(the head of the sorted name list). -/
theorem variable_selection_precedence {E : Type} (cas : CAS E) (p : Parsed E) (var : String) :
    (var ≠ "" → after_parse cas p var = solve_and_format cas p var)
    ∧ (∀ a : String, var = "" → parsedFree cas p = {a} →
        after_parse cas p var = solve_and_format cas p a)
    ∧ (var = "" → 2 ≤ (parsedFree cas p).card → "x" ∈ parsedFree cas p →
        after_parse cas p var = solve_and_format cas p "x")
    ∧ (var = "" → 2 ≤ (parsedFree cas p).card → "x" ∉ parsedFree cas p →
        after_parse cas p var = solve_and_format cas p ((sortNames (parsedFree cas p)).headD "")) := by
  refine ⟨fun hv => after_parse_var cas p var hv, fun a hv ha => ?_, fun hv h2 hx => ?_,
    fun hv h2 hx => ?_⟩
  · subst hv; exact after_parse_sole cas p a ha
  · subst hv; exact after_parse_multi_x cas p h2 hx
  · subst hv; exact after_parse_multi_first cas p h2 hx

theorem variable_selection_precedence_witness :
    2 ≤ (parsedFree demoCAS (Parsed.bare (DExpr.add2 "a" "b"))).card ∧
    "x" ∉ parsedFree demoCAS (Parsed.bare (DExpr.add2 "a" "b")) ∧
    after_parse demoCAS (Parsed.bare (DExpr.add2 "a" "b")) "" =
      solve_and_format demoCAS (Parsed.bare (DExpr.add2 "a" "b"))
        ((sortNames (parsedFree demoCAS (Parsed.bare (DExpr.add2 "a" "b")))).headD "") :=
  ⟨by decide, by decide,
    (variable_selection_precedence demoCAS (Parsed.bare (DExpr.add2 "a" "b")) "").2.2.2
      rfl (by decide) (by decide)⟩

/-- C4: A missing, empty, or whitespace-only equation parameter (empty
after trimming) yields HTTP 400 with body error "Missing 'equation'
query parameter", whatever the variable parameter is. -/
theorem missing_equation_param {E : Type} (cas : CAS E) (eqQ varQ : Option String)
    (h : pyStrip (eqQ.getD "") = "") :
    solve_equation cas eqQ varQ =
      ⟨400, Body.error "Missing \x27equation\x27 query parameter"⟩ :=
  solve_equation_missing cas eqQ varQ h

theorem missing_equation_param_witness :
    pyStrip ((some "   ").getD "") = "" ∧
    solve_equation demoCAS (some "   ") (some "y") =
      ⟨400, Body.error "Missing \x27equation\x27 query parameter"⟩ :=
  ⟨by decide, missing_equation_param demoCAS (some "   ") (some "y") (by decide)⟩

/-- C5: A non-empty trimmed equation containing two or more separator
signs yields HTTP 400 with body error "Invalid equation format. Use
single '=' sign.". -/
theorem multiple_equals_invalid_format {E : Type} (cas : CAS E) (eqQ varQ : Option String)
    (h1 : pyStrip (eqQ.getD "") ≠ "") (h2 : countEq (pyStrip (eqQ.getD "")) ≥ 2) :
    solve_equation cas eqQ varQ =
      ⟨400, Body.error "Invalid equation format. Use single \x27=\x27 sign."⟩ :=
  solve_equation_of_ok cas eqQ varQ _ h1
    (try_block_invalid cas (pyStrip (eqQ.getD "")) (pyStrip (varQ.getD "")) h2)

theorem multiple_equals_invalid_format_witness :
    pyStrip ((some "1=2=3").getD "") ≠ "" ∧
    countEq (pyStrip ((some "1=2=3").getD "")) ≥ 2 ∧
    solve_equation demoCAS (some "1=2=3") none =
      ⟨400, Body.error "Invalid equation format. Use single \x27=\x27 sign."⟩ :=
  ⟨by decide, by decide,
    multiple_equals_invalid_format demoCAS (some "1=2=3") none (by decide) (by decide)⟩

/-- C6: When the solver returns normally for the chosen variable v, the
200 result string is "No solution found" for no solutions,
"v = <solution>" for exactly one, and "v = <sol1>, <sol2>, ..." with the
solutions comma-joined in the solver's own order for more than one. -/
theorem solution_formatting {E : Type} (cas : CAS E) (p : Parsed E) (v : String)
    (sols : List E) (h : cas.solve p v = Except.ok sols) :
    (sols = [] →
      solve_and_format cas p v = Except.ok ⟨200, Body.result "No solution found"⟩)
    ∧ (∀ s : E, sols = [s] →
      solve_and_format cas p v = Except.ok ⟨200, Body.result (v ++ " = " ++ cas.toStr s)⟩)
    ∧ (2 ≤ sols.length →
      solve_and_format cas p v =
        Except.ok ⟨200, Body.result (v ++ " = " ++ String.intercalate ", " (sols.map cas.toStr))⟩) := by
  refine ⟨fun h0 => ?_, fun s h1 => ?_, fun h2 => ?_⟩
  · subst h0; simp [solve_and_format, h, Except.map, format_solutions]
  · subst h1; simp [solve_and_format, h, Except.map, format_solutions]
  · cases sols with
    | nil => simp at h2
    | cons s rest =>
      cases rest with
      | nil => simp at h2
      | cons t rest2 => simp [solve_and_format, h, Except.map, format_solutions]

theorem solution_formatting_witness :
    demoCAS.solve (Parsed.bare (DExpr.lin "x" 2 4)) "x" = Except.ok [DExpr.num (-2)] ∧
    solve_and_format demoCAS (Parsed.bare (DExpr.lin "x" 2 4)) "x" =
      Except.ok ⟨200, Body.result ("x" ++ " = " ++ demoCAS.toStr (DExpr.num (-2)))⟩ :=
  ⟨by decide,
    (solution_formatting demoCAS (Parsed.bare (DExpr.lin "x" 2 4)) "x" [DExpr.num (-2)]
      (by decide)).2.1 (DExpr.num (-2)) rfl⟩

/-- C8: The handler is deterministic and stateless: in any run of
requests, the response at a position depends only on the request at
that position, so two occurrences of the same (equation, variable)
input pair receive identical responses; in particular re-running a
request yields the same body and status every time. -/
theorem handler_stateless_deterministic {E : Type} (cas : CAS E)
    (reqs : List (Option String × Option String)) (i j : Nat)
    (h : reqs[i]? = reqs[j]?) :
    (serve cas reqs)[i]? = (serve cas reqs)[j]? := by
  simp [serve, List.getElem?_map, h]

theorem handler_stateless_deterministic_witness :
    [(some "5", (none : Option String)), (some "x+1", none), (some "5", none)][0]? =
      [(some "5", (none : Option String)), (some "x+1", none), (some "5", none)][2]? ∧
    (serve demoCAS [(some "5", none), (some "x+1", none), (some "5", none)])[0]? =
      (serve demoCAS [(some "5", none), (some "x+1", none), (some "5", none)])[2]? :=
  ⟨by decide,
    handler_stateless_deterministic demoCAS
      [(some "5", none), (some "x+1", none), (some "5", none)] 0 2 (by decide)⟩

/-- C9: A variable parameter that is present but empty or whitespace-only
is trimmed to the empty string before the presence check, so the request
is handled exactly as if the parameter were absent. -/
theorem blank_variable_like_absent {E : Type} (cas : CAS E) (eqQ : Option String)
    (ws : String) (h : pyStrip ws = "") :
    solve_equation cas eqQ (some ws) = solve_equation cas eqQ none := by
  simp only [solve_equation, Option.getD_some, Option.getD_none]
  rw [h, pyStrip_empty]

theorem blank_variable_like_absent_witness :
    pyStrip "  " = "" ∧
    solve_equation demoCAS (some "2x+4") (some "  ") = solve_equation demoCAS (some "2x+4") none :=
  ⟨by decide, blank_variable_like_absent demoCAS (some "2x+4") "  " (by decide)⟩

theorem exc_bind_ok {e a b : Type} (x : a) (f : a → Except e b) :
    (Except.ok x : Except e a).bind f = f x := rfl

theorem exc_bind_error {e a b : Type} (m : e) (f : a → Except e b) :
    (Except.error m : Except e a).bind f = Except.error m := rfl

theorem strMk_data (s : String) : String.mk s.data = s := by
  cases s
  rfl

theorem dropWhile_length_le (p : Char → Bool) (l : List Char) :
    (List.dropWhile p l).length ≤ l.length :=
  (List.dropWhile_sublist p : List.Sublist (List.dropWhile p l) l).length_le

theorem dropWhile_eq_self_of_length (p : Char → Bool) (l : List Char)
    (h : (List.dropWhile p l).length = l.length) : List.dropWhile p l = l := by
  cases l with
  | nil => rfl
  | cons c cs =>
    by_cases hp : p c = true
    · exfalso
      rw [List.dropWhile_cons, if_pos hp] at h
      have := dropWhile_length_le p cs
      simp at h
      omega
    · rw [List.dropWhile_cons, if_neg hp]

theorem dropWhile_self_head (p : Char → Bool) (c : Char) (w : List Char)
    (h : List.dropWhile p (c :: w) = c :: w) : p c = false := by
  by_contra hc
  rw [List.dropWhile_cons, if_pos (by simpa using hc)] at h
  have h1 := dropWhile_length_le p w
  have h2 := congrArg List.length h
  simp at h2
  omega

theorem pyStripL_parts (l : List Char) (h : pyStripL l = l) :
    List.dropWhile wsChar l = l ∧ List.dropWhile wsChar l.reverse = l.reverse := by
  unfold pyStripL at h
  have e1 := dropWhile_length_le wsChar l
  have e2 := dropWhile_length_le wsChar (List.dropWhile wsChar l).reverse
  have e3 := congrArg List.length h
  simp at e2 e3
  have hd1 : List.dropWhile wsChar l = l := dropWhile_eq_self_of_length _ _ (by omega)
  refine ⟨hd1, ?_⟩
  rw [hd1] at h
  have := congrArg List.reverse h
  simpa using this

theorem dropWhile_append_self (p : Char → Bool) (l m : List Char)
    (h : List.dropWhile p l = l) (hl : l ≠ []) :
    List.dropWhile p (l ++ m) = l ++ m := by
  cases l with
  | nil => exact absurd rfl hl
  | cons c cs =>
    have hp := dropWhile_self_head p c cs h
    rw [List.cons_append, List.dropWhile_cons, if_neg (by simp [hp])]

theorem pyStripL_append (l m : List Char)
    (h1 : List.dropWhile wsChar l = l) (hl : l ≠ [])
    (h2 : List.dropWhile wsChar (l ++ m).reverse = (l ++ m).reverse) :
    pyStripL (l ++ m) = l ++ m := by
  unfold pyStripL
  rw [dropWhile_append_self wsChar l m h1 hl, h2, List.reverse_reverse]

theorem data_ne_nil (s : String) (h : s ≠ "") : s.data ≠ [] := by
  intro hd
  apply h
  rw [← strMk_data s, hd]

theorem pyStrip_self_data (s : String) (h : pyStrip s = s) : pyStripL s.data = s.data :=
  congrArg String.data h

theorem pyStrip_append_right (e t : String) (h : pyStrip e = e) (he : e ≠ "")
    (c : Char) (w : List Char) (ht : t.data.reverse = c :: w) (hc : wsChar c = false) :
    pyStrip (e ++ t) = e ++ t := by
  have hparts := pyStripL_parts e.data (pyStrip_self_data e h)
  show String.mk (pyStripL (e ++ t).data) = e ++ t
  rw [String.data_append]
  rw [pyStripL_append e.data t.data hparts.1 (data_ne_nil e he) ?_]
  · rw [← String.data_append, strMk_data]
  · rw [List.reverse_append, ht, List.cons_append, List.dropWhile_cons, if_neg (by simp [hc])]

theorem pyStrip_prepend_eq (b : String) (h : pyStrip b = b) :
    pyStrip ("=" ++ b) = "=" ++ b := by
  have hparts := pyStripL_parts b.data (pyStrip_self_data b h)
  show String.mk (pyStripL ("=" ++ b).data) = "=" ++ b
  rw [String.data_append]
  rw [pyStripL_append "=".data b.data (by decide) (by decide) ?_]
  · rw [← String.data_append, strMk_data]
  · rw [List.reverse_append]
    cases hb : b.data.reverse with
    | nil => decide
    | cons c w =>
      have hrev := hparts.2
      rw [hb] at hrev
      have hc := dropWhile_self_head wsChar c w hrev
      rw [List.cons_append, List.dropWhile_cons, if_neg (by simp [hc])]

theorem countEq_one_of (s xs ys : String) (hdata : s.data = xs.data ++ '=' :: ys.data)
    (hx : countEq xs = 0) (hy : countEq ys = 0) : countEq s = 1 := by
  unfold countEq at hx hy ⊢
  rw [hdata, List.count_append, List.count_cons]
  simp [hx, hy]

theorem splitEq_two (s xs ys : String) (hdata : s.data = xs.data ++ '=' :: ys.data)
    (hx : countEq xs = 0) (hy : countEq ys = 0) : splitEq s = [xs, ys] := by
  simp only [splitEq]
  rw [hdata, splitEqList_append xs.data ys.data hx, splitEqList_no_sep ys.data hy]
  simp [strMk_data]

theorem ne_empty_of_countEq_one (s : String) (h : countEq s = 1) : s ≠ "" := by
  intro hx
  rw [hx] at h
  exact absurd h (by decide)

/-- C3: With no explicit variable parameter and zero free variables in
the parsed input, the handler skips solving and evaluates: for a
single-separator equation it returns the equality test of the two
parsed sides rendered as a boolean string in a 200 result response, and
for a bare expression it returns the parsed expression's display string
in a 200 result response. -/
theorem zero_free_variables_evaluate {E : Type} (cas : CAS E) (eqQ varQ : Option String)
    (l r e : E) (hv : pyStrip (varQ.getD "") = "") :
    (pyStrip (eqQ.getD "") ≠ "" → countEq (pyStrip (eqQ.getD "")) = 1 →
      cas.parse_expr (pyStrip ((splitEq (pyStrip (eqQ.getD ""))).getD 0 "")) = Except.ok l →
      cas.parse_expr (pyStrip ((splitEq (pyStrip (eqQ.getD ""))).getD 1 "")) = Except.ok r →
      cas.free_symbols l ∪ cas.free_symbols r = ∅ →
      solve_equation cas eqQ varQ = ⟨200, Body.result (boolStr (cas.equals l r))⟩)
    ∧ (pyStrip (eqQ.getD "") ≠ "" → countEq (pyStrip (eqQ.getD "")) = 0 →
      cas.parse_expr (pyStrip (eqQ.getD "")) = Except.ok e →
      cas.free_symbols e = ∅ →
      solve_equation cas eqQ varQ = ⟨200, Body.result (cas.toStr e)⟩) := by
  constructor
  · intro he hc hp0 hp1 hfree
    apply solve_equation_of_ok cas eqQ varQ _ he
    rw [try_block_eqn cas _ _ hc]
    simp only [hp0, hp1, exc_bind_ok]
    rw [hv]
    exact after_parse_eval_eqn cas l r (by simpa [parsedFree] using hfree)
  · intro he hc hp hfree
    apply solve_equation_of_ok cas eqQ varQ _ he
    rw [try_block_bare cas _ _ hc]
    simp only [hp, exc_bind_ok]
    rw [hv]
    exact after_parse_eval_bare cas e (by simpa [parsedFree] using hfree)

theorem zero_free_variables_evaluate_witness :
    (countEq (pyStrip ((some "5=5").getD "")) = 1 ∧
      solve_equation demoCAS (some "5=5") none =
        ⟨200, Body.result (boolStr (demoCAS.equals (DExpr.num 5) (DExpr.num 5)))⟩)
    ∧ (countEq (pyStrip ((some "5").getD "")) = 0 ∧
      solve_equation demoCAS (some "5") none =
        ⟨200, Body.result (demoCAS.toStr (DExpr.num 5))⟩) :=
  ⟨⟨by decide,
    (zero_free_variables_evaluate demoCAS (some "5=5") none (DExpr.num 5) (DExpr.num 5)
        (DExpr.num 5) (by decide)).1
      (by decide) (by decide) (by decide) (by decide) (by decide)⟩,
   ⟨by decide,
    (zero_free_variables_evaluate demoCAS (some "5") none (DExpr.num 5) (DExpr.num 5)
        (DExpr.num 5) (by decide)).2
      (by decide) (by decide) (by decide) (by decide)⟩⟩

/-- C7: For a non-empty trimmed expression string e with no separator
sign that parses to an expression with exactly one free variable v,
the request for e and the request for the equation string e = 0 (with
right-hand side parsing to a zero expression with no free symbols)
produce identical responses, given the collaborator contract that
solving a bare expression is solving it equated to zero; the
bare-expression path and the equation path with right-hand side 0 are
equivalent. -/
theorem bare_expression_equals_eq_zero {E : Type} (cas : CAS E) (e : String) (pe z : E)
    (v : String)
    (h1 : pyStrip e = e) (h2 : e ≠ "") (h3 : countEq e = 0)
    (h4 : cas.parse_expr e = Except.ok pe)
    (h5 : cas.parse_expr "0" = Except.ok z)
    (h6 : cas.free_symbols z = ∅)
    (h7 : cas.free_symbols pe = {v})
    (h8 : cas.solve (Parsed.bare pe) v = cas.solve (Parsed.eqn pe z) v) :
    solve_equation cas (some e) none = solve_equation cas (some (e ++ "=0")) none := by
  have hdata : (e ++ "=0").data = e.data ++ '=' :: "0".data := by
    rw [String.data_append]
  have hcount : countEq (e ++ "=0") = 1 := countEq_one_of _ e "0" hdata h3 (by decide)
  have hsplit : splitEq (e ++ "=0") = [e, "0"] := splitEq_two _ e "0" hdata h3 (by decide)
  have hL : try_block cas e "" = solve_and_format cas (Parsed.bare pe) v := by
    rw [try_block_bare cas e "" h3]
    simp only [h4, exc_bind_ok]
    exact after_parse_sole cas (Parsed.bare pe) v (by simpa [parsedFree] using h7)
  have hR : try_block cas (e ++ "=0") "" = solve_and_format cas (Parsed.eqn pe z) v := by
    rw [try_block_eqn cas _ "" hcount, hsplit]
    simp only [List.getD_cons_zero, List.getD_cons_succ]
    rw [h1, show pyStrip "0" = "0" from by decide]
    simp only [h4, h5, exc_bind_ok]
    exact after_parse_sole cas (Parsed.eqn pe z) v (by simp [parsedFree, h7, h6])
  have hstrip : pyStrip (e ++ "=0") = e ++ "=0" :=
    pyStrip_append_right e "=0" h1 h2 '0' ['='] (by decide) (by decide)
  have he2 : e ++ "=0" ≠ "" := ne_empty_of_countEq_one _ hcount
  simp only [solve_equation, Option.getD_some, Option.getD_none, pyStrip_empty]
  rw [h1, hstrip, if_neg h2, if_neg he2, hL, hR]
  simp only [solve_and_format, h8]

theorem bare_expression_equals_eq_zero_witness :
    countEq "2x+4" = 0 ∧
    demoCAS.parse_expr "2x+4" = Except.ok (DExpr.lin "x" 2 4) ∧
    demoCAS.free_symbols (DExpr.lin "x" 2 4) = {"x"} ∧
    demoCAS.solve (Parsed.bare (DExpr.lin "x" 2 4)) "x" =
      demoCAS.solve (Parsed.eqn (DExpr.lin "x" 2 4) (DExpr.num 0)) "x" ∧
    solve_equation demoCAS (some "2x+4") none =
      solve_equation demoCAS (some ("2x+4" ++ "=0")) none :=
  ⟨by decide, by decide, by decide, by decide,
    bare_expression_equals_eq_zero demoCAS "2x+4" (DExpr.lin "x" 2 4) (DExpr.num 0) "x"
      (by decide) (by decide) (by decide) (by decide) (by decide) (by decide) (by decide)
      (by decide)⟩

/-- C10: An equation with exactly one separator sign but an empty side
passes the single-separator format validation and fails inside parsing
instead: with a parser that raises on the empty string, both a= (left
side parseable) and =b produce the 400 SolveError response wrapping the
parser's message, not the invalid-format ValidationError message. -/
theorem empty_side_single_equals {E : Type} (cas : CAS E) (m : String)
    (hp : cas.parse_expr "" = Except.error m) :
    (∀ (a : String) (l : E), pyStrip a = a → a ≠ "" → countEq a = 0 →
      cas.parse_expr a = Except.ok l →
      solve_equation cas (some (a ++ "=")) none =
        ⟨400, Body.error ("Failed to solve equation: " ++ m)⟩)
    ∧ (∀ b : String, pyStrip b = b → countEq b = 0 →
      solve_equation cas (some ("=" ++ b)) none =
        ⟨400, Body.error ("Failed to solve equation: " ++ m)⟩) := by
  constructor
  · intro a l h1 h2 h3 h4
    have hdata : (a ++ "=").data = a.data ++ '=' :: "".data := by
      rw [String.data_append]
    have hcount : countEq (a ++ "=") = 1 := countEq_one_of _ a "" hdata h3 (by decide)
    have hsplit : splitEq (a ++ "=") = [a, ""] := splitEq_two _ a "" hdata h3 (by decide)
    have hstrip : pyStrip (a ++ "=") = a ++ "=" :=
      pyStrip_append_right a "=" h1 h2 '=' [] (by decide) (by decide)
    apply solve_equation_of_error
    · rw [Option.getD_some, hstrip]
      exact ne_empty_of_countEq_one _ hcount
    · rw [Option.getD_some, Option.getD_none, hstrip, pyStrip_empty,
        try_block_eqn cas _ _ hcount, hsplit]
      simp only [List.getD_cons_zero, List.getD_cons_succ]
      rw [h1, pyStrip_empty]
      simp only [h4, exc_bind_ok, hp, exc_bind_error]
  · intro b h1 h3
    have hdata : ("=" ++ b).data = "".data ++ '=' :: b.data := by
      rw [String.data_append]
      rfl
    have hcount : countEq ("=" ++ b) = 1 := countEq_one_of _ "" b hdata (by decide) h3
    have hsplit : splitEq ("=" ++ b) = ["", b] := splitEq_two _ "" b hdata (by decide) h3
    have hstrip : pyStrip ("=" ++ b) = "=" ++ b := pyStrip_prepend_eq b h1
    apply solve_equation_of_error
    · rw [Option.getD_some, hstrip]
      exact ne_empty_of_countEq_one _ hcount
    · rw [Option.getD_some, Option.getD_none, hstrip, pyStrip_empty,
        try_block_eqn cas _ _ hcount, hsplit]
      simp only [List.getD_cons_zero, pyStrip_empty]
      simp only [hp, exc_bind_error]

theorem empty_side_single_equals_witness :
    demoCAS.parse_expr "" = Except.error "could not parse: " ∧
    solve_equation demoCAS (some ("x+1" ++ "=")) none =
      ⟨400, Body.error ("Failed to solve equation: " ++ "could not parse: ")⟩ ∧
    solve_equation demoCAS (some ("=" ++ "5")) none =
      ⟨400, Body.error ("Failed to solve equation: " ++ "could not parse: ")⟩ :=
  ⟨by decide,
    (empty_side_single_equals demoCAS "could not parse: " (by decide)).1 "x+1"
      (DExpr.lin "x" 1 1) (by decide) (by decide) (by decide) (by decide),
    (empty_side_single_equals demoCAS "could not parse: " (by decide)).2 "5"
      (by decide) (by decide)⟩
